import Mathlib

/-!
Shallow embedding of the agent-x repository core:
the schema translator `jsonSchemaToZod` and the `Agent` constructor from
`src/agents/Agent.ts`, together with the Zod validator semantics needed to
state acceptance properties, and the `get-tweets` command handler.
-/

namespace AgentX

/-- A JSON-style runtime value, the payloads the compiled validator checks. -/
inductive JsonVal : Type where
  | null : JsonVal
  | str (s : String) : JsonVal
  | num (n : Int) : JsonVal
  | bool (b : Bool) : JsonVal
  | arr (xs : List JsonVal) : JsonVal
  | obj (fields : List (String × JsonVal)) : JsonVal


/-- The compiled validator values produced by the translator: the fragment of
Zod schemas that `jsonSchemaToZod` can build (`z.any`, `z.string`, `z.number`,
`z.boolean`, `z.array`, `z.object`, and `.describe` wrapping). -/
inductive ZodT : Type where
  | any : ZodT
  | str : ZodT
  | num : ZodT
  | bool : ZodT
  | arr (elem : ZodT) : ZodT
  | obj (shape : List (String × ZodT)) : ZodT
  | described (inner : ZodT) (d : String) : ZodT


/-- The input schema nodes of `jsonSchemaToZod` (duck-typed `any` in the
source): a record with optional `type`, `properties`, `required`, `items` and
`description` members. -/
inductive JSchema : Type where
  | mk (type : Option String)
       (properties : Option (List (String × JSchema)))
       (required : Option (List String))
       (items : Option JSchema)
       (description : Option String) : JSchema


def JSchema.type : JSchema → Option String
  | .mk t _ _ _ _ => t

def JSchema.properties : JSchema → Option (List (String × JSchema))
  | .mk _ p _ _ _ => p

def JSchema.required : JSchema → Option (List String)
  | .mk _ _ r _ _ => r

def JSchema.items : JSchema → Option JSchema
  | .mk _ _ _ i _ => i

def JSchema.description : JSchema → Option String
  | .mk _ _ _ _ d => d

/-- JavaScript truthiness of an optional string member: absent (`undefined`)
and the empty string are falsy, every other string is truthy. -/
def truthyStr : Option String → Bool
  | none => false
  | some s => s ≠ ""

/-- `if (x.description) s = s.describe(x.description)` from the source:
attach the description when it is truthy, otherwise leave the schema alone. -/
def maybeDescribe (t : ZodT) (d : Option String) : ZodT :=
  match d with
  | some s => if s = "" then t else .described t s
  | none => t

mutual

/-- Embedding of `jsonSchemaToZod` (src/agents/Agent.ts lines 100-156),
restricted to a non-absent schema node; the absent (`null`/`undefined`)
argument case (`!schema`) is handled by `jsonSchemaToZodOpt`. -/
def jsonSchemaToZod : JSchema → ZodT
  | .mk type props reqd items desc =>
    match type with
    | none => .any
    | some t =>
      -- `!schema.type`: a missing or empty-string type tag yields z.any()
      if t = "" then .any
      else if t = "object" then
        -- `if (schema.properties)` guards the Object.entries walk
        let shape := match props with
          | some l => compileProps l
          | none => []
        let zodObj := ZodT.obj shape
        -- the `schema.required` loop in the source reassigns `shape[field]`
        -- to itself and rebuilds `z.object(shape)` from the unchanged shape
        let zodObj := match reqd with
          | some _ => ZodT.obj shape
          | none => zodObj
        maybeDescribe zodObj desc
      else if t = "string" then maybeDescribe .str desc
      else if t = "number" then maybeDescribe .num desc
      else if t = "boolean" then maybeDescribe .bool desc
      else if t = "array" then
        -- `schema.items ? jsonSchemaToZod(schema.items) : z.any()`
        let elem := match items with
          | some it => jsonSchemaToZod it
          | none => ZodT.any
        maybeDescribe (.arr elem) desc
      else .any

/-- The `Object.entries(schema.properties).forEach` loop of the object case:
compile each field and attach the field value's own description if truthy. -/
def compileProps : List (String × JSchema) → List (String × ZodT)
  | [] => []
  | (k, v) :: rest =>
    (k, maybeDescribe (jsonSchemaToZod v) v.description) :: compileProps rest

end

/-- The translator on its actual `any` argument: `!schema` (the node being
`null`/`undefined`) short-circuits to `z.any()`. -/
def jsonSchemaToZodOpt : Option JSchema → ZodT
  | none => .any
  | some s => jsonSchemaToZod s

/-- JavaScript property lookup on a parsed object: keys of a parsed JSON/YAML
object are unique, so first-match lookup. -/
def lookupField (fields : List (String × JsonVal)) (k : String) : Option JsonVal :=
  match fields with
  | [] => none
  | (k', v) :: rest => if k' = k then some v else lookupField rest k

mutual

/-- Zod parse-success semantics for the compiled fragment: `z.any` accepts
everything; the primitive schemas accept exactly their own primitive kind;
`z.array` accepts arrays whose every element parses; `z.object` (default,
non-strict) accepts objects that carry every declared field with a parsing
value, ignoring unknown keys; `.describe` does not change parsing. -/
def validate : ZodT → JsonVal → Bool
  | .any, _ => true
  | .str, .str _ => true
  | .str, _ => false
  | .num, .num _ => true
  | .num, _ => false
  | .bool, .bool _ => true
  | .bool, _ => false
  | .arr e, .arr xs => validateElems e xs
  | .arr _, _ => false
  | .obj shape, .obj fields => validateFields shape fields
  | .obj _, _ => false
  | .described t _, v => validate t v

/-- Every element of the array must parse against the element schema. -/
def validateElems : ZodT → List JsonVal → Bool
  | _, [] => true
  | e, x :: xs => validate e x && validateElems e xs

/-- Every declared field must be present and its value must parse. -/
def validateFields : List (String × ZodT) → List (String × JsonVal) → Bool
  | [], _ => true
  | (k, t) :: rest, fields =>
    (match lookupField fields k with
     | some v => validate t v
     | none => false) && validateFields rest fields

end

/-- The agent definition record the loaders return
(`{name, description, system_prompt, model, client, dynamic_variables?,
output_schema?}`). -/
structure AgentDef : Type where
  name : String
  description : String
  system_prompt : String
  model : String
  client : String
  dynamic_variables : Option (List (String × String))
  output_schema : Option JSchema

/-- The `AgentOptions` interface of `src/agents/Agent.ts`. -/
structure AgentOptions : Type where
  agentName : Option String
  agentConfigPath : Option String

/-- The model-client values the constructor can build: the provider tag,
the credential it was given, and the model name. No network is contacted at
construction time; the clients only store these. -/
inductive ModelClient : Type where
  | openai (apiKey : String) (model : String) : ModelClient
  | anthropic (apiKey : String) (model : String) : ModelClient
  | fireworks (apiKey : String) (model : String) : ModelClient

/-- The environment credential key each provider branch reads. -/
def credKey : String → String
  | "openai" => "OPENAI_API_KEY"
  | "anthropic" => "ANTHROPIC_API_KEY"
  | "fireworks" => "FIREWORKS_API_KEY"
  | _ => ""

/-- The provider-selection step of the `Agent` constructor
(src/agents/Agent.ts lines 29-47): dispatch on `agentDef.client`, read the
provider's credential from the environment (`process.env`, modelled as a
partial map; `!process.env.K` is truthy when the variable is absent or the
empty string), and either build the client or throw. -/
def selectModelClient (client : String) (model : String)
    (env : String → Option String) : Except String ModelClient :=
  if client = "openai" then
    match env "OPENAI_API_KEY" with
    | none => .error "OPENAI_API_KEY not set"
    | some k =>
      if k = "" then .error "OPENAI_API_KEY not set"
      else .ok (.openai k model)
  else if client = "anthropic" then
    match env "ANTHROPIC_API_KEY" with
    | none => .error "ANTHROPIC_API_KEY not set"
    | some k =>
      if k = "" then .error "ANTHROPIC_API_KEY not set"
      else .ok (.anthropic k model)
  else if client = "fireworks" then
    match env "FIREWORKS_API_KEY" with
    | none => .error "FIREWORKS_API_KEY not set"
    | some k =>
      if k = "" then .error "FIREWORKS_API_KEY not set"
      else .ok (.fireworks k model)
  else
    .error ("Unsupported model client: " ++ client)

/-- The definition-resolution step of the constructor (lines 17-27):
`if (options.agentConfigPath)` loads from the file, `else if
(options.agentName)` loads from the registry, otherwise throw. The loaders
`loadAgentFromFile` and `loadAgentDefinition` are external collaborators and
are passed in as functions. -/
def resolveAgentDef (loadAgentFromFile : String → AgentDef)
    (loadAgentDefinition : String → AgentDef)
    (options : AgentOptions) : Except String AgentDef :=
  if truthyStr options.agentConfigPath then
    .ok (loadAgentFromFile (options.agentConfigPath.getD ""))
  else if truthyStr options.agentName then
    .ok (loadAgentDefinition (options.agentName.getD ""))
  else
    .error "You must provide either agentName or agentConfigPath"

/-- The schema-compilation step (lines 49-57): when `agentDef.output_schema`
is present, compile it inside `try/catch`, wrapping any raised error into the
single message `Failed to convert output schema to Zod schema`. The compiler
is a parameter so that a raising compiler can be considered; the embedded
`jsonSchemaToZod` itself is total. -/
def compileOutputSchema (compile : JSchema → Except String ZodT)
    (output_schema : Option JSchema) : Except String (Option ZodT) :=
  match output_schema with
  | none => .ok none
  | some s =>
    match compile s with
    | .ok t => .ok (some t)
    | .error _ => .error "Failed to convert output schema to Zod schema"

/-- The data the constructor hands to `BaseAgent`. -/
structure BuiltAgent : Type where
  name : String
  description : String
  systemPromptTemplate : String
  dynamicVariables : List (String × String)
  modelClient : ModelClient
  outputSchema : Option ZodT

/-- The whole `Agent` constructor (lines 17-69) as a function: resolve the
agent definition, select the model client, compile the output schema, build
the `BaseAgent` data; a thrown error at any step is the `Except.error` of
that step, and later steps are not reached. -/
def constructAgent (loadAgentFromFile : String → AgentDef)
    (loadAgentDefinition : String → AgentDef)
    (env : String → Option String)
    (compile : JSchema → Except String ZodT)
    (options : AgentOptions) : Except String BuiltAgent :=
  match resolveAgentDef loadAgentFromFile loadAgentDefinition options with
  | .error e => .error e
  | .ok agentDef =>
    match selectModelClient agentDef.client agentDef.model env with
    | .error e => .error e
    | .ok modelClient =>
      match compileOutputSchema compile agentDef.output_schema with
      | .error e => .error e
      | .ok outputSchema =>
        .ok { name := agentDef.name
              description := agentDef.description
              systemPromptTemplate := agentDef.system_prompt
              dynamicVariables := agentDef.dynamic_variables.getD []
              modelClient := modelClient
              outputSchema := outputSchema }

/-- The top-level description attached to a compiled validator node, for
stating description preservation. -/
def ZodT.descriptionOf : ZodT → Option String
  | .described _ d => some d
  | _ => none

/-- The shape of a compiled object validator (empty for non-objects),
looking through `.describe` wrapping. -/
def ZodT.shapeOf : ZodT → List (String × ZodT)
  | .obj shape => shape
  | .described t _ => t.shapeOf
  | _ => []

/-- Whether `jsonSchemaToZod` is handed a node that passes its guards: a
present node whose `type` member is truthy and one of the five recognized
tags. Everything else compiles to `z.any()`. -/
def hasRecognizedType : Option JSchema → Bool
  | none => false
  | some s =>
    match s.type with
    | none => false
    | some t =>
      t = "object" || t = "string" || t = "number" || t = "boolean" ||
        t = "array"

/-- The result record of a terminal command handler. -/
structure HandlerResult : Type where
  output : String

/-- JavaScript `String.prototype.startsWith`: whether the character sequence
of the second string is an initial segment of the first. -/
def jsStartsWith (s p : String) : Bool :=
  p.data.isPrefixOf s.data

/-- The argument record the `get-tweets` handler reads
(`args.username`, `args.limit`). -/
structure GetTweetsArgs : Type where
  username : String
  limit : Option String

/-- The `twitterGetTweets.handler` from the get-tweets command file: call the
external `getTweets` (a parameter; `Except.error` models a thrown error,
carrying the stringified exception), join the returned lines with newlines,
and prefix with the cross mark on a thrown error or an `Error`-prefixed
text, otherwise with the memo mark. -/
def twitterGetTweetsHandler
    (getTweets : String → Option String → Except String (List String))
    (args : GetTweetsArgs) : HandlerResult :=
  match getTweets args.username args.limit with
  | .ok result =>
    let formattedResult := String.intercalate "\n" result
    { output :=
        if jsStartsWith formattedResult "Error" then "❌ " ++ formattedResult
        else "📝 " ++ formattedResult }
  | .error e => { output := "❌ Error fetching tweets: " ++ e }

/-- Whether a runtime value is a string. -/
def JsonVal.isString : JsonVal → Bool
  | .str _ => true
  | _ => false

/-- Whether a runtime value is a number. -/
def JsonVal.isNumber : JsonVal → Bool
  | .num _ => true
  | _ => false

/-- Whether a runtime value is a boolean. -/
def JsonVal.isBoolean : JsonVal → Bool
  | .bool _ => true
  | _ => false

/-! ### Helper lemmas -/

theorem validate_maybeDescribe (t : ZodT) (d : Option String) (v : JsonVal) :
    validate (maybeDescribe t d) v = validate t v := by
  cases d with
  | none => rfl
  | some s =>
    by_cases h : s = "" <;> simp [maybeDescribe, h, validate]

theorem shapeOf_maybeDescribe (t : ZodT) (d : Option String) :
    (maybeDescribe t d).shapeOf = t.shapeOf := by
  cases d with
  | none => rfl
  | some s =>
    by_cases h : s = "" <;> simp [maybeDescribe, h, ZodT.shapeOf]

theorem descriptionOf_maybeDescribe_ne (t : ZodT) (s : String) (h : s ≠ "") :
    (maybeDescribe t (some s)).descriptionOf = some s := by
  simp [maybeDescribe, h, ZodT.descriptionOf]

theorem compileProps_mem {l : List (String × JSchema)} {k : String}
    {v : JSchema} (h : (k, v) ∈ l) :
    (k, maybeDescribe (jsonSchemaToZod v) v.description) ∈ compileProps l := by
  induction l with
  | nil => cases h
  | cons hd tl ih =>
    obtain ⟨k', v'⟩ := hd
    rcases List.mem_cons.mp h with h' | h'
    · injection h' with h1 h2
      subst h1
      subst h2
      exact List.mem_cons_self _ _
    · exact List.mem_cons_of_mem _ (ih h')

theorem validate_str (v : JsonVal) : validate .str v = v.isString := by
  cases v <;> simp [validate, JsonVal.isString]

theorem validate_num (v : JsonVal) : validate .num v = v.isNumber := by
  cases v <;> simp [validate, JsonVal.isNumber]

theorem validate_bool (v : JsonVal) : validate .bool v = v.isBoolean := by
  cases v <;> simp [validate, JsonVal.isBoolean]

/-! ### Claim theorems -/

/-- C2: for each supported provider identifier (`openai`, `anthropic`,
`fireworks`), when the corresponding environment credential is set to a
truthy (non-empty) value, the provider-selection step of the `Agent`
constructor succeeds and builds a model client; when it is absent or empty,
it fails with the error naming exactly that credential
(`<CREDENTIAL> not set`), without any network interaction (the constructor
only stores the key and model). -/
theorem c2_provider_credential_gate (c model : String)
    (env : String → Option String)
    (hc : c = "openai" ∨ c = "anthropic" ∨ c = "fireworks") :
    ((∃ k, env (credKey c) = some k ∧ k ≠ "") →
      ∃ mc, selectModelClient c model env = .ok mc) ∧
    ((env (credKey c) = none ∨ env (credKey c) = some "") →
      selectModelClient c model env = .error (credKey c ++ " not set")) := by
  rcases hc with h | h | h <;> subst h <;>
    constructor <;> intro hk
  · obtain ⟨k, hk1, hk2⟩ := hk
    exact ⟨.openai k model, by simp [selectModelClient, credKey] at hk1 ⊢; simp [hk1, hk2]⟩
  · rcases hk with hk | hk <;> simp [selectModelClient, credKey] at hk ⊢ <;> simp [hk]
  · obtain ⟨k, hk1, hk2⟩ := hk
    exact ⟨.anthropic k model, by simp [selectModelClient, credKey] at hk1 ⊢; simp [hk1, hk2]⟩
  · rcases hk with hk | hk <;> simp [selectModelClient, credKey] at hk ⊢ <;> simp [hk]
  · obtain ⟨k, hk1, hk2⟩ := hk
    exact ⟨.fireworks k model, by simp [selectModelClient, credKey] at hk1 ⊢; simp [hk1, hk2]⟩
  · rcases hk with hk | hk <;> simp [selectModelClient, credKey] at hk ⊢ <;> simp [hk]

/-- Witness for C2: with `OPENAI_API_KEY` set, selecting `openai` succeeds;
with the environment empty, selecting `anthropic` fails naming
`ANTHROPIC_API_KEY`. -/
theorem c2_provider_credential_gate_witness :
    (∃ mc, selectModelClient "openai" "gpt-4o"
      (fun _ => some "sk-test") = .ok mc) ∧
    selectModelClient "anthropic" "claude"
      (fun _ => none) = .error "ANTHROPIC_API_KEY not set" := by
  constructor
  · exact (c2_provider_credential_gate "openai" "gpt-4o"
      (fun _ => some "sk-test") (Or.inl rfl)).1 ⟨"sk-test", rfl, by decide⟩
  · have h := (c2_provider_credential_gate "anthropic" "claude"
      (fun _ => none) (Or.inr (Or.inl rfl))).2 (Or.inl rfl)
    simpa [credKey] using h

/-- C3: for any provider identifier outside `{openai, anthropic, fireworks}`,
the provider-selection step fails with `Unsupported model client: <id>`,
whatever credentials the environment holds. -/
theorem c3_unsupported_provider (c model : String)
    (env : String → Option String)
    (h1 : c ≠ "openai") (h2 : c ≠ "anthropic") (h3 : c ≠ "fireworks") :
    selectModelClient c model env =
      .error ("Unsupported model client: " ++ c) := by
  simp [selectModelClient, h1, h2, h3]

/-- Witness for C3: identifier `grok`, with every credential present in the
environment, yields the message `Unsupported model client: grok`. -/
theorem c3_unsupported_provider_witness :
    selectModelClient "grok" "grok-2" (fun _ => some "key") =
      .error "Unsupported model client: grok" := by
  have h := c3_unsupported_provider "grok" "grok-2" (fun _ => some "key")
    (by decide) (by decide) (by decide)
  simpa using h

/-- C5: when neither `agentName` nor `agentConfigPath` is given (both absent
or empty, i.e. falsy), the `Agent` constructor fails with the configuration
error `You must provide either agentName or agentConfigPath`; the failure is
the same for every environment, compiler and loader pair, so it happens
before any provider selection. -/
theorem c5_missing_options_error
    (loadAgentFromFile loadAgentDefinition : String → AgentDef)
    (env : String → Option String) (compile : JSchema → Except String ZodT)
    (options : AgentOptions)
    (hp : truthyStr options.agentConfigPath = false)
    (hn : truthyStr options.agentName = false) :
    constructAgent loadAgentFromFile loadAgentDefinition env compile options =
      .error "You must provide either agentName or agentConfigPath" := by
  simp [constructAgent, resolveAgentDef, hp, hn]

/-- Witness for C5: constructing with both options `none` fails with the
configuration error, even with a loader that would return a valid `openai`
definition and a full environment. -/
theorem c5_missing_options_error_witness :
    constructAgent
      (fun _ => ⟨"a", "d", "p", "m", "openai", none, none⟩)
      (fun _ => ⟨"a", "d", "p", "m", "openai", none, none⟩)
      (fun _ => some "sk-test") (fun _ => .ok .any)
      ⟨none, none⟩ =
      .error "You must provide either agentName or agentConfigPath" :=
  c5_missing_options_error _ _ _ _ ⟨none, none⟩ rfl rfl

/-- C4: an absent schema node, a node without a truthy `type` member, and a
node whose type tag is outside `{object, string, number, boolean, array}`
all compile to `z.any()`, which accepts every value. -/
theorem c4_unrecognized_accepts_anything (s : Option JSchema) (v : JsonVal)
    (h : hasRecognizedType s = false) :
    jsonSchemaToZodOpt s = .any ∧ validate (jsonSchemaToZodOpt s) v = true := by
  have hz : jsonSchemaToZodOpt s = .any := by
    cases s with
    | none => rfl
    | some sc =>
      obtain ⟨t, p, r, i, d⟩ := sc
      cases t with
      | none => rfl
      | some tt =>
        have h1 : tt ≠ "object" := fun hh => by
          subst hh; simp [hasRecognizedType, JSchema.type] at h
        have h2 : tt ≠ "string" := fun hh => by
          subst hh; simp [hasRecognizedType, JSchema.type] at h
        have h3 : tt ≠ "number" := fun hh => by
          subst hh; simp [hasRecognizedType, JSchema.type] at h
        have h4 : tt ≠ "boolean" := fun hh => by
          subst hh; simp [hasRecognizedType, JSchema.type] at h
        have h5 : tt ≠ "array" := fun hh => by
          subst hh; simp [hasRecognizedType, JSchema.type] at h
        by_cases he : tt = ""
        · subst he
          show jsonSchemaToZod _ = _
          unfold jsonSchemaToZod
          simp
        · show jsonSchemaToZod _ = _
          unfold jsonSchemaToZod
          simp [he, h1, h2, h3, h4, h5]
  exact ⟨hz, by rw [hz]; simp [validate]⟩

/-- Witness for C4: the unrecognized tag `banana` compiles to the
accept-anything validator, which accepts a string value. -/
theorem c4_unrecognized_accepts_anything_witness :
    jsonSchemaToZodOpt (some (.mk (some "banana") none none none none)) =
      .any ∧
    validate
      (jsonSchemaToZodOpt (some (.mk (some "banana") none none none none)))
      (.str "x") = true :=
  c4_unrecognized_accepts_anything
    (some (.mk (some "banana") none none none none)) (.str "x") rfl

/-- C7: nodes tagged `string`, `number` and `boolean` compile to the matching
primitive validator: whatever the other members hold, the compiled validator
accepts a value exactly when it is respectively a string, a number, or a
boolean, rejecting every mismatching value. -/
theorem c7_primitive_validators (p : Option (List (String × JSchema)))
    (r : Option (List String)) (i : Option JSchema) (d : Option String)
    (v : JsonVal) :
    validate (jsonSchemaToZod (.mk (some "string") p r i d)) v = v.isString ∧
    validate (jsonSchemaToZod (.mk (some "number") p r i d)) v = v.isNumber ∧
    validate (jsonSchemaToZod (.mk (some "boolean") p r i d)) v =
      v.isBoolean := by
  refine ⟨?_, ?_, ?_⟩
  · have e : jsonSchemaToZod (.mk (some "string") p r i d) =
        maybeDescribe .str d := by unfold jsonSchemaToZod; simp
    rw [e, validate_maybeDescribe]
    exact validate_str v
  · have e : jsonSchemaToZod (.mk (some "number") p r i d) =
        maybeDescribe .num d := by unfold jsonSchemaToZod; simp
    rw [e, validate_maybeDescribe]
    exact validate_num v
  · have e : jsonSchemaToZod (.mk (some "boolean") p r i d) =
        maybeDescribe .bool d := by unfold jsonSchemaToZod; simp
    rw [e, validate_maybeDescribe]
    exact validate_bool v

/-- C9: the schema translator is a total function on finite schema trees: it
is accepted by Lean's termination checker because it recurses only into an
object node's property values (via `compileProps`) and an array node's
`items`, both strict subterms, so every input compiles to some validator. -/
theorem c9_translator_total :
    (∀ s : JSchema, ∃ t : ZodT, jsonSchemaToZod s = t) ∧
    (∀ s : Option JSchema, ∃ t : ZodT, jsonSchemaToZodOpt s = t) ∧
    (∀ l : List (String × JSchema),
      ∃ sh : List (String × ZodT), compileProps l = sh) :=
  ⟨fun s => ⟨jsonSchemaToZod s, rfl⟩,
   fun s => ⟨jsonSchemaToZodOpt s, rfl⟩,
   fun l => ⟨compileProps l, rfl⟩⟩

/-- C1 (code bug): the `required` bookkeeping loop of `jsonSchemaToZod`
(`shape[field] = shape[field]`) is a no-op, so every declared property of an
object schema is compiled as required. For the schema
`{type: "object", properties: {a: {type: "string"}}, required: []}` —
where `a` is *not* listed in `required` — the compiled validator rejects the
object `{}` that omits `a`, although it accepts `{a: "x"}`; the claim (and
the spec) say `{}` must be accepted. -/
theorem c1_nonrequired_field_still_rejected :
    validate
      (jsonSchemaToZod (.mk (some "object")
        (some [("a", .mk (some "string") none none none none)])
        (some []) none none))
      (.obj []) = false ∧
    validate
      (jsonSchemaToZod (.mk (some "object")
        (some [("a", .mk (some "string") none none none none)])
        (some []) none none))
      (.obj [("a", .str "x")]) = true := by
  constructor <;>
    simp [jsonSchemaToZod, compileProps, JSchema.description, maybeDescribe,
      validate, validateFields, lookupField]

/-- C6: if the resolved agent definition carries an output schema and the
schema compiler raises, the `Agent` constructor fails with the single
wrapped message `Failed to convert output schema to Zod schema` — not the
raw internal error — and that message differs from every
unsupported-provider message and every missing-credential message. -/
theorem c6_schema_compile_failure_wrapped
    (loadAgentFromFile loadAgentDefinition : String → AgentDef)
    (env : String → Option String) (compile : JSchema → Except String ZodT)
    (options : AgentOptions) (agentDef : AgentDef) (mc : ModelClient)
    (s : JSchema) (e : String)
    (hres : resolveAgentDef loadAgentFromFile loadAgentDefinition options =
      .ok agentDef)
    (hsel : selectModelClient agentDef.client agentDef.model env = .ok mc)
    (hos : agentDef.output_schema = some s)
    (hc : compile s = .error e) :
    constructAgent loadAgentFromFile loadAgentDefinition env compile options =
      .error "Failed to convert output schema to Zod schema" ∧
    (∀ c, "Unsupported model client: " ++ c ≠
      "Failed to convert output schema to Zod schema") ∧
    (∀ p, p = "openai" ∨ p = "anthropic" ∨ p = "fireworks" →
      credKey p ++ " not set" ≠
        "Failed to convert output schema to Zod schema") := by
  refine ⟨?_, ?_, ?_⟩
  · simp [constructAgent, hres, hsel, compileOutputSchema, hos, hc]
  · intro c h
    have hd := congrArg String.data h
    rw [String.data_append] at hd
    have hh := congrArg List.head? hd
    have h1 : ("Unsupported model client: ").data =
        'U' :: ("nsupported model client: ").data := by decide
    rw [h1] at hh
    simp at hh
  · intro p hp
    rcases hp with h | h | h <;> subst h <;> decide

/-- Witness for C6: a loader returning an `openai` definition with an output
schema, a full environment, and a compiler that raises, make construction
fail with the wrapped message. -/
theorem c6_schema_compile_failure_wrapped_witness :
    constructAgent
      (fun _ => ⟨"a", "d", "p", "m", "openai", none,
        some (.mk (some "string") none none none none)⟩)
      (fun _ => ⟨"a", "d", "p", "m", "openai", none,
        some (.mk (some "string") none none none none)⟩)
      (fun _ => some "sk-test") (fun _ => .error "boom")
      ⟨none, some "conf.yaml"⟩ =
      .error "Failed to convert output schema to Zod schema" :=
  (c6_schema_compile_failure_wrapped
    (fun _ => ⟨"a", "d", "p", "m", "openai", none,
      some (.mk (some "string") none none none none)⟩)
    (fun _ => ⟨"a", "d", "p", "m", "openai", none,
      some (.mk (some "string") none none none none)⟩)
    (fun _ => some "sk-test") (fun _ => .error "boom")
    ⟨none, some "conf.yaml"⟩
    ⟨"a", "d", "p", "m", "openai", none,
      some (.mk (some "string") none none none none)⟩
    (.openai "sk-test" "m") (.mk (some "string") none none none none)
    "boom" rfl rfl rfl rfl).1

/-- The compiled form of an object node with declared properties: the shape
is the compiled property list, whatever the `required` member holds. -/
theorem jsonSchemaToZod_object (props : List (String × JSchema))
    (r : Option (List String)) (i : Option JSchema) (d : Option String) :
    jsonSchemaToZod (.mk (some "object") (some props) r i d) =
      maybeDescribe (.obj (compileProps props)) d := by
  cases r <;> (unfold jsonSchemaToZod; simp)

/-- C8: truthy descriptions are preserved onto the compiled validator: a
recognized-type node with non-empty description compiles to a validator
whose top-level description is that string, and every declared object field
whose schema carries a non-empty description appears in the compiled
object's shape with that description attached. -/
theorem c8_descriptions_preserved :
    (∀ (p : Option (List (String × JSchema))) (r : Option (List String))
       (i : Option JSchema) (dd t : String),
       dd ≠ "" →
       (t = "object" ∨ t = "string" ∨ t = "number" ∨ t = "boolean" ∨
         t = "array") →
       (jsonSchemaToZod (.mk (some t) p r i (some dd))).descriptionOf =
         some dd) ∧
    (∀ (props : List (String × JSchema)) (r : Option (List String))
       (i : Option JSchema) (d : Option String) (k : String) (v : JSchema)
       (fd : String),
       (k, v) ∈ props → v.description = some fd → fd ≠ "" →
       ∃ zt,
         (k, zt) ∈
           (jsonSchemaToZod
             (.mk (some "object") (some props) r i d)).shapeOf ∧
         zt.descriptionOf = some fd) := by
  constructor
  · intro p r i dd t hdd ht
    rcases ht with h | h | h | h | h <;> subst h <;>
      (unfold jsonSchemaToZod; simp [maybeDescribe, hdd, ZodT.descriptionOf])
  · intro props r i d k v fd hmem hdesc hfd
    refine ⟨maybeDescribe (jsonSchemaToZod v) v.description, ?_, ?_⟩
    · rw [jsonSchemaToZod_object, shapeOf_maybeDescribe]
      simpa [ZodT.shapeOf] using compileProps_mem hmem
    · rw [hdesc]
      exact descriptionOf_maybeDescribe_ne _ _ hfd

/-- Witness for C8: an object node described `the object` keeps its
description, and its field `a`, described `field desc`, appears in the
compiled shape with that description. -/
theorem c8_descriptions_preserved_witness :
    (jsonSchemaToZod (.mk (some "object") none none none
        (some "the object"))).descriptionOf = some "the object" ∧
    ∃ zt,
      ("a", zt) ∈
        (jsonSchemaToZod (.mk (some "object")
          (some [("a", .mk (some "string") none none none
            (some "field desc"))]) none none none)).shapeOf ∧
      zt.descriptionOf = some "field desc" :=
  ⟨c8_descriptions_preserved.1 none none none "the object" "object"
      (by decide) (Or.inl rfl),
   c8_descriptions_preserved.2
      [("a", .mk (some "string") none none none (some "field desc"))]
      none none none "a" (.mk (some "string") none none none
        (some "field desc")) "field desc"
      (List.mem_singleton.mpr rfl) rfl (by decide)⟩

/-- C10: the get-tweets command handler is a total function returning a
record with a string `output`; when the underlying tweet fetch throws, or
returns lines whose newline-join starts with `Error`, the output begins with
the cross mark, and otherwise with the memo mark. -/
theorem c10_get_tweets_handler
    (getTweets : String → Option String → Except String (List String))
    (args : GetTweetsArgs) :
    (∀ e, getTweets args.username args.limit = .error e →
      ∃ rest, (twitterGetTweetsHandler getTweets args).output =
        "❌" ++ rest) ∧
    (∀ r, getTweets args.username args.limit = .ok r →
      (jsStartsWith (String.intercalate "\n" r) "Error" = true →
        ∃ rest, (twitterGetTweetsHandler getTweets args).output =
          "❌" ++ rest) ∧
      (jsStartsWith (String.intercalate "\n" r) "Error" = false →
        ∃ rest, (twitterGetTweetsHandler getTweets args).output =
          "📝" ++ rest)) := by
  constructor
  · intro e he
    refine ⟨" Error fetching tweets: " ++ e, ?_⟩
    simp [twitterGetTweetsHandler, he]
    rw [show ("❌ Error fetching tweets: " : String) =
        "❌" ++ " Error fetching tweets: " from by decide,
      String.append_assoc]
  · intro r hr
    refine ⟨?_, ?_⟩
    · intro hsw
      refine ⟨" " ++ String.intercalate "\n" r, ?_⟩
      simp [twitterGetTweetsHandler, hr, hsw]
      rw [show ("❌ " : String) = "❌" ++ " " from by decide,
        String.append_assoc]
    · intro hsw
      refine ⟨" " ++ String.intercalate "\n" r, ?_⟩
      simp [twitterGetTweetsHandler, hr, hsw]
      rw [show ("📝 " : String) = "📝" ++ " " from by decide,
        String.append_assoc]

/-- Witness for C10: a fetch returning `["hello tweet"]` yields a memo-mark
output, and a throwing fetch yields a cross-mark output. -/
theorem c10_get_tweets_handler_witness :
    (∃ rest, (twitterGetTweetsHandler (fun _ _ => .ok ["hello tweet"])
      ⟨"user", none⟩).output = "📝" ++ rest) ∧
    (∃ rest, (twitterGetTweetsHandler (fun _ _ => .error "network down")
      ⟨"user", none⟩).output = "❌" ++ rest) :=
  ⟨((c10_get_tweets_handler (fun _ _ => .ok ["hello tweet"])
      ⟨"user", none⟩).2 ["hello tweet"] rfl).2 (by decide),
   (c10_get_tweets_handler (fun _ _ => .error "network down")
      ⟨"user", none⟩).1 "network down" rfl⟩

end AgentX
